import Mathlib

/-!
Shallow embedding of the ESP32WebSocketControl library
(`ESP32WebSocketControl/ApplicationDemo/ESP32WebSocketControl.cpp`): the typed
variable registry, the JSON command dispatcher driven by `onWebSocketEvent`,
the streaming flag with its start/stop callbacks, and the two broadcast paths.
JSON numbers are modelled exactly (integers as `Int`, floats as `Rat`);
stateful C code becomes explicit state passing, and observable side effects
(replies sent to the client, callback invocations, serializer and
send-primitive invocations) are returned as data.
-/

set_option autoImplicit false

namespace ESP32WebSocketControl

/-- Variable kind tags, mirroring the `VarType` enum (`TYPE_INT`,
`TYPE_FLOAT`, `TYPE_STRING`). -/
inductive VarType where
  | TYPE_INT
  | TYPE_FLOAT
  | TYPE_STRING
  deriving DecidableEq, Repr

/-- A decoded JSON value, mirroring what an ArduinoJson `JsonVariant` can
hold. Numbers are modelled exactly: `jint` for an integer-encoded number,
`jfloat` for a float-encoded number (as a rational). `jother` stands for an
array or object value. -/
inductive JsonValue where
  | jnull
  | jbool (b : Bool)
  | jint (n : Int)
  | jfloat (q : Rat)
  | jstr (s : String)
  | jother
  deriving DecidableEq, Repr

/-- One entry of the application's variable array: the `VariableConfig`
struct (name, type tag, the three value slots, and the optional numeric
limits `minVal`/`maxVal` guarded by `hasLimits`; the C limits are doubles,
modelled exactly as rationals). -/
structure VariableConfig where
  name : String
  type : VarType
  intValue : Int
  floatValue : Rat
  stringValue : String
  hasLimits : Bool
  minVal : Rat
  maxVal : Rat
  deriving DecidableEq, Repr

/-- `JsonVariant.is<int>()` of the ArduinoJson dependency: true for an
integer-encoded number, and for a float-encoded number with no fractional
part (an exact float such as `42.0`). -/
def JsonValue.isIntCompatible : JsonValue → Bool
  | .jint _ => true
  | .jfloat q => q.den == 1
  | _ => false

/-- `JsonVariant.is<float>()` of the ArduinoJson dependency: true for any
numeric value, integer- or float-encoded. -/
def JsonValue.isFloatCompatible : JsonValue → Bool
  | .jint _ => true
  | .jfloat _ => true
  | _ => false

/-- `JsonVariant.is<const char*>()` of the ArduinoJson dependency: true only
for a text value. -/
def JsonValue.isStringCompatible : JsonValue → Bool
  | .jstr _ => true
  | _ => false

/-- `JsonVariant.as<int>()` on a numeric value (a float is truncated toward
zero, as the C++ cast does; the set path only uses this when
`isIntCompatible` holds, i.e. when the float has no fractional part). -/
def JsonValue.asInt : JsonValue → Int
  | .jint n => n
  | .jfloat q => q.num.tdiv (q.den : Int)
  | _ => 0

/-- `JsonVariant.as<float>()` on a numeric value, modelled exactly. -/
def JsonValue.asFloat : JsonValue → Rat
  | .jint n => (n : Rat)
  | .jfloat q => q
  | _ => 0

/-- `JsonVariant.as<String>()` on a text value. -/
def JsonValue.asString : JsonValue → String
  | .jstr s => s
  | _ => ""

/-- `findVariableIndexInternal`: linear scan returning the index of the first
variable whose name matches (`strcmp` equality); `none` models the C
return value -1 (not found or uninitialized array). -/
def findVariableIndexInternal (vars : List VariableConfig) (name : String) :
    Option Nat :=
  vars.findIdx? (fun v => v.name == name)

/-- The type-compatibility test `setVariableValueInternal` performs before
writing, collected per kind from the three `is<...>` checks of its switch:
`TYPE_INT` requires `is<int>`, `TYPE_FLOAT` requires `is<float>` or
`is<int>`, `TYPE_STRING` requires `is<const char*>`. -/
def typeCompatible (t : VarType) (v : JsonValue) : Bool :=
  match t with
  | .TYPE_INT => v.isIntCompatible
  | .TYPE_FLOAT => v.isFloatCompatible || v.isIntCompatible
  | .TYPE_STRING => v.isStringCompatible

/-- `setVariableValueInternal`: validates the candidate against the
variable's type and (for numeric kinds with `hasLimits`) against
`minVal ≤ candidate ≤ maxVal`, then writes the matching value slot. The C
function mutates the array in place and returns a success flag; here the
state is passed explicitly: the result is the success flag and the variable
array after the call (unchanged whenever the flag is false, since the C code
writes only after all checks pass). An out-of-bounds index (the C guard
`index < 0 || index >= _numVariables`, and the null-array guard) fails. -/
def setVariableValueInternal (vars : List VariableConfig) (index : Nat)
    (v : JsonValue) : Bool × List VariableConfig :=
  match vars[index]? with
  | none => (false, vars)
  | some var =>
    match var.type with
    | .TYPE_INT =>
      if !v.isIntCompatible then (false, vars)
      else
        let newValue := v.asInt
        if var.hasLimits ∧
            ((newValue : Rat) < var.minVal ∨ (newValue : Rat) > var.maxVal) then
          (false, vars)
        else
          (true, vars.set index { var with intValue := newValue })
    | .TYPE_FLOAT =>
      if !v.isFloatCompatible ∧ !v.isIntCompatible then (false, vars)
      else
        let newValue := v.asFloat
        if var.hasLimits ∧ (newValue < var.minVal ∨ newValue > var.maxVal) then
          (false, vars)
        else
          (true, vars.set index { var with floatValue := newValue })
    | .TYPE_STRING =>
      if !v.isStringCompatible then (false, vars)
      else
        (true, vars.set index { var with stringValue := v.asString })

/-- The `value` field of the JSON replies, chosen by the variable's type tag
(the switch shared by `sendVariableValueInternal` and
`broadcastVariableUpdate`). -/
def currentValue (var : VariableConfig) : JsonValue :=
  match var.type with
  | .TYPE_INT => .jint var.intValue
  | .TYPE_FLOAT => .jfloat var.floatValue
  | .TYPE_STRING => .jstr var.stringValue

/-- One entry of the bulk `var_config_list` reply: `name`, the type tag as
text, the current `value`, `hasLimits`, and the `min`/`max` pair when
applicable. -/
structure VarConfigEntry where
  name : String
  typeText : String
  value : JsonValue
  hasLimits : Bool
  limits : Option (Rat × Rat)
  deriving DecidableEq, Repr

/-- A message sent back to a client: a `{status, message}` reply from
`sendStatusInternal`, a `{variable, value}` reply from
`sendVariableValueInternal`, or the bulk `var_config_list` reply. -/
inductive Reply where
  | statusMsg (status : String) (message : String)
  | valueMsg (variableName : String) (value : JsonValue)
  | varConfigList (entries : List VarConfigEntry)
  deriving DecidableEq, Repr

/-- `sendVariableValueInternal` as the list of replies it emits: the current
`{variable, value}` of the indexed variable, or nothing when the index is
invalid (the C function returns silently in that case). -/
def sendVariableValueInternal (vars : List VariableConfig) (index : Nat) :
    List Reply :=
  match vars[index]? with
  | none => []
  | some var => [.valueMsg var.name (currentValue var)]

/-- The module-level streaming state: the `_isStreaming` flag plus whether
each of `_onStreamStartCallback` / `_onStreamStopCallback` is non-null. -/
structure StreamState where
  isStreaming : Bool
  hasStartCallback : Bool
  hasStopCallback : Bool
  deriving DecidableEq, Repr

/-- The mutable library state the event handler reads and writes: the
variable array and the streaming state. -/
structure ControlState where
  vars : List VariableConfig
  stream : StreamState
  deriving DecidableEq, Repr

/-- Observable outcome of handling one event: the replies sent to the
originating client, the library state afterwards, and how many times the
start and stop application callbacks were invoked. -/
structure EventResult where
  replies : List Reply
  state : ControlState
  startCalls : Nat
  stopCalls : Nat
  deriving DecidableEq, Repr

/-- A parsed command document: the fields the dispatcher reads. `action` and
`varName` ("variable") are `some` only when the key is present with a text
value (a missing key and a non-text value both make the C
`const char*` extraction null); `value` is `none` when the key is absent and
`some .jnull` when it is present as JSON null (`containsKey` vs `isNull`). -/
structure CommandDoc where
  action : Option String
  varName : Option String
  value : Option JsonValue
  deriving DecidableEq, Repr

/-- The JSON-command dispatch of `onWebSocketEvent` (the body run after a
successful `deserializeJson`): checks `action`, then for `get`/`set` the
`variable` field, name resolution, and for `set` the `value` field and
`setVariableValueInternal`; `start_stream` / `stop_stream` gate the
callbacks on the `_isStreaming` flag; anything else is an unknown action. -/
def handleCommand (st : ControlState) (doc : CommandDoc) : EventResult :=
  match doc.action with
  | none => ⟨[.statusMsg "error" "JSON missing 'action' field."], st, 0, 0⟩
  | some action =>
    if action == "get" || action == "set" then
      match doc.varName with
      | none =>
        ⟨[.statusMsg "error" "Missing 'variable' field for get/set action."],
          st, 0, 0⟩
      | some name =>
        match findVariableIndexInternal st.vars name with
        | none => ⟨[.statusMsg "error" "Variable name not found."], st, 0, 0⟩
        | some varIndex =>
          if action == "get" then
            ⟨sendVariableValueInternal st.vars varIndex, st, 0, 0⟩
          else
            match doc.value with
            | none =>
              ⟨[.statusMsg "error" "Missing or null 'value' field for set action."],
                st, 0, 0⟩
            | some .jnull =>
              ⟨[.statusMsg "error" "Missing or null 'value' field for set action."],
                st, 0, 0⟩
            | some v =>
              let r := setVariableValueInternal st.vars varIndex v
              if r.1 then
                ⟨sendVariableValueInternal r.2 varIndex,
                  { st with vars := r.2 }, 0, 0⟩
              else
                ⟨[.statusMsg "error" "Failed to set value (invalid type or out of limits)."],
                  st, 0, 0⟩
    else if action == "start_stream" then
      if st.stream.hasStartCallback then
        if !st.stream.isStreaming then
          ⟨[.statusMsg "ok" "Stream started."],
            { st with stream := { st.stream with isStreaming := true } }, 1, 0⟩
        else
          ⟨[.statusMsg "info" "Stream was already active."], st, 0, 0⟩
      else
        ⟨[.statusMsg "error" "Streaming feature not implemented/configured."],
          st, 0, 0⟩
    else if action == "stop_stream" then
      if st.stream.hasStopCallback then
        if st.stream.isStreaming then
          ⟨[.statusMsg "ok" "Stream stopped."],
            { st with stream := { st.stream with isStreaming := false } }, 0, 1⟩
        else
          ⟨[.statusMsg "info" "Stream was already stopped."], st, 0, 0⟩
      else
        ⟨[.statusMsg "error" "Streaming feature not implemented/configured."],
          st, 0, 0⟩
    else
      ⟨[.statusMsg "error" "Unknown 'action' command."], st, 0, 0⟩

/-- WebSocket frame opcodes the data handler distinguishes (any other opcode
falls through both branches). -/
inductive Opcode where
  | WS_TEXT
  | WS_BINARY
  | otherOp
  deriving DecidableEq, Repr

/-- The fields of `AwsFrameInfo` the handler reads: opcode, final-fragment
flag, fragment offset `index`, and the total frame length `len`. -/
structure FrameInfo where
  opcode : Opcode
  final : Bool
  index : Nat
  len : Nat
  deriving DecidableEq, Repr

/-- The `WS_EVT_DATA` branch of `onWebSocketEvent`. `eventLen` is the `len`
argument (bytes delivered in this chunk); `parsed` is the result of
`deserializeJson` on the payload (`none` models a parse error), consulted
only when the frame is a single complete text frame
(`opcode == WS_TEXT && final && index == 0 && len == eventLen`). A binary
frame is merely logged; every other frame shape is ignored entirely. -/
def onDataEvent (st : ControlState) (info : FrameInfo) (eventLen : Nat)
    (parsed : Option CommandDoc) : EventResult :=
  if info.opcode = .WS_TEXT ∧ info.final = true ∧ info.index = 0 ∧
      info.len = eventLen then
    match parsed with
    | none => ⟨[.statusMsg "error" "Invalid JSON format received."], st, 0, 0⟩
    | some doc => handleCommand st doc
  else
    ⟨[], st, 0, 0⟩

/-- The `WS_EVT_DISCONNECT` branch of `onWebSocketEvent`: auto-stop when the
streaming flag is set, the connected-client count has reached zero, and a
stop callback is bound. Returns the streaming state after the event and the
number of stop-callback invocations. -/
def onDisconnectEvent (stream : StreamState) (clientCount : Nat) :
    StreamState × Nat :=
  if stream.isStreaming ∧ clientCount = 0 ∧ stream.hasStopCallback then
    ({ stream with isStreaming := false }, 1)
  else
    (stream, 0)

/-- Effect record for the broadcast paths: how many times the JSON
serializer ran and how many send-primitive (`textAll` / `binaryAll`)
invocations were issued. -/
structure BroadcastEffect where
  serializations : Nat
  sendCalls : Nat
  deriving DecidableEq, Repr

/-- `broadcastVariableUpdate`: returns immediately when no client is
connected (before any lookup or serialization); otherwise resolves the name,
silently dropping an unknown one, and serializes once and calls `textAll`
once. -/
def broadcastVariableUpdate (clientCount : Nat) (vars : List VariableConfig)
    (name : String) : BroadcastEffect :=
  if clientCount = 0 then ⟨0, 0⟩
  else
    match findVariableIndexInternal vars name with
    | none => ⟨0, 0⟩
    | some _ => ⟨1, 1⟩

/-- `broadcastBinaryData`: calls `binaryAll` once only when at least one
client is connected, the data pointer is non-null, and the length is
positive; no serialization ever happens on this path. The payload models the
`(data, len)` pair: `none` is a null pointer. -/
def broadcastBinaryData (clientCount : Nat) (payload : Option (List Nat)) :
    BroadcastEffect :=
  match payload with
  | none => ⟨0, 0⟩
  | some data =>
    if clientCount > 0 ∧ data.length > 0 then ⟨0, 1⟩ else ⟨0, 0⟩

/-- Modelled from the spec: the textual type tag of the bulk config reply,
`"INT" | "FLOAT" | "STRING"` (§6 of the documentation). -/
def typeText : VarType → String
  | .TYPE_INT => "INT"
  | .TYPE_FLOAT => "FLOAT"
  | .TYPE_STRING => "STRING"

/-- Modelled from the spec: the bulk-config entry the `get_all_vars_config`
handler builds for one variable — that handler belongs to the repository's
full command dispatcher, whose source file is not among the provided
sources — carrying `name`, the kind as text, the current `value`,
`hasLimits`, and `min`/`max` when applicable (§4.2, §6). -/
def varConfigEntryOf (var : VariableConfig) : VarConfigEntry :=
  { name := var.name
    typeText := typeText var.type
    value := currentValue var
    hasLimits := var.hasLimits
    limits := if var.hasLimits then some (var.minVal, var.maxVal) else none }

/-- Modelled from the spec: the `get_all_vars_config` action — absent from
the provided source files — emits a full registry snapshot with one entry
per registered variable in registration order, or an error reply when the
registry is empty/uninitialized (§4.2). -/
def handleGetAllVarsConfig (vars : List VariableConfig) : Reply :=
  if vars.isEmpty then
    Reply.statusMsg "error" "No variables configured."
  else
    Reply.varConfigList (vars.map varConfigEntryOf)

/-- Modelled from the spec: the full dispatcher of the repository, i.e.
`handleCommand` extended with the `get_all_vars_config` action missing from
the provided sources; every other action behaves exactly as in
`handleCommand`, and the bulk action mutates nothing and invokes no
callback. -/
def handleCommandFull (st : ControlState) (doc : CommandDoc) : EventResult :=
  match doc.action with
  | some a =>
    if a == "get_all_vars_config" then
      ⟨[handleGetAllVarsConfig st.vars], st, 0, 0⟩
    else
      handleCommand st doc
  | none => handleCommand st doc

/-- A concrete one-variable registry used to instantiate the theorems: the
`gain` example of §8 of the documentation (kind Float, value 1.0, limits
(0.0, 10.0)). -/
def gainVar : VariableConfig :=
  { name := "gain", type := .TYPE_FLOAT, intValue := 0, floatValue := 1,
    stringValue := "", hasLimits := true, minVal := 0, maxVal := 10 }

/-- The singleton registry holding `gainVar`. -/
def demoVars : List VariableConfig := [gainVar]

/-- A rational value v has no fractional part exactly when `is<int>` accepts
it; on such values `as<int>` cast back to a rational agrees with
`as<float>`. -/
theorem asInt_cast_eq_asFloat (v : JsonValue) (h : v.isIntCompatible = true) :
    ((v.asInt : Rat)) = v.asFloat := by
  cases v with
  | jfloat q =>
    have hd : q.den = 1 := by
      simpa [JsonValue.isIntCompatible] using h
    simp [JsonValue.asInt, JsonValue.asFloat, hd, Int.tdiv_one,
      Rat.coe_int_num_of_den_eq_one hd]
  | jint n => simp [JsonValue.asInt, JsonValue.asFloat]
  | jnull => simp [JsonValue.isIntCompatible] at h
  | jbool b => simp [JsonValue.isIntCompatible] at h
  | jstr s => simp [JsonValue.isIntCompatible] at h
  | jother => simp [JsonValue.isIntCompatible] at h

/-- C7: the last-client-disconnect event is a no-op when the state is Idle;
when Streaming with a stop callback bound it transitions to Idle and invokes
the stop callback exactly once; when Streaming with no stop callback bound
it changes nothing and invokes nothing. -/
theorem onDisconnectEvent_lastClient_spec (s : StreamState) :
    (s.isStreaming = false → onDisconnectEvent s 0 = (s, 0)) ∧
    (s.isStreaming = true → s.hasStopCallback = true →
      onDisconnectEvent s 0 = ({ s with isStreaming := false }, 1)) ∧
    (s.isStreaming = true → s.hasStopCallback = false →
      onDisconnectEvent s 0 = (s, 0)) := by
  refine ⟨fun h1 => ?_, fun h1 h2 => ?_, fun h1 h2 => ?_⟩ <;>
    simp_all [onDisconnectEvent]

/-- Witness for C7 at concrete states: streaming with a stop callback stops
it once; idle, and streaming without a stop callback, stay put. -/
theorem onDisconnectEvent_lastClient_spec_witness :
    onDisconnectEvent ⟨true, true, true⟩ 0 = (⟨false, true, true⟩, 1) ∧
    onDisconnectEvent ⟨false, true, true⟩ 0 = (⟨false, true, true⟩, 0) ∧
    onDisconnectEvent ⟨true, true, false⟩ 0 = (⟨true, true, false⟩, 0) :=
  ⟨(onDisconnectEvent_lastClient_spec ⟨true, true, true⟩).2.1 rfl rfl,
   (onDisconnectEvent_lastClient_spec ⟨false, true, true⟩).1 rfl,
   (onDisconnectEvent_lastClient_spec ⟨true, true, false⟩).2.2 rfl rfl⟩

/-- C8: with zero clients connected, `broadcastVariableUpdate` and
`broadcastBinaryData` serialize nothing and issue zero send-primitive
invocations; `broadcastBinaryData` is additionally a no-op on a null or
empty payload regardless of the client count. -/
theorem broadcast_noClients_noop (vars : List VariableConfig) (name : String)
    (payload : Option (List Nat)) (clientCount : Nat) :
    broadcastVariableUpdate 0 vars name = ⟨0, 0⟩ ∧
    broadcastBinaryData 0 payload = ⟨0, 0⟩ ∧
    broadcastBinaryData clientCount none = ⟨0, 0⟩ ∧
    broadcastBinaryData clientCount (some []) = ⟨0, 0⟩ := by
  refine ⟨rfl, ?_, rfl, ?_⟩
  · cases payload <;> simp [broadcastBinaryData]
  · simp [broadcastBinaryData]

/-- C10: an inbound binary frame, and an inbound text frame that is not a
single complete final frame (non-final, nonzero fragment offset, or a length
mismatch), produce no reply of any kind and leave the registry and the
streaming state untouched, with no callback invoked. -/
theorem onDataEvent_nonCommand_ignored (st : ControlState) (info : FrameInfo)
    (eventLen : Nat) (parsed : Option CommandDoc) :
    (info.opcode = .WS_BINARY →
      onDataEvent st info eventLen parsed = ⟨[], st, 0, 0⟩) ∧
    (info.final = false →
      onDataEvent st info eventLen parsed = ⟨[], st, 0, 0⟩) ∧
    (info.index ≠ 0 →
      onDataEvent st info eventLen parsed = ⟨[], st, 0, 0⟩) ∧
    (info.len ≠ eventLen →
      onDataEvent st info eventLen parsed = ⟨[], st, 0, 0⟩) := by
  refine ⟨fun h => ?_, fun h => ?_, fun h => ?_, fun h => ?_⟩ <;>
    simp [onDataEvent, h]

/-- Witness for C10: a complete binary frame and a non-final text frame are
both ignored at a concrete state. -/
theorem onDataEvent_nonCommand_ignored_witness :
    onDataEvent ⟨[], ⟨false, false, false⟩⟩ ⟨.WS_BINARY, true, 0, 4⟩ 4
        (some ⟨some "get", none, none⟩) =
      ⟨[], ⟨[], ⟨false, false, false⟩⟩, 0, 0⟩ ∧
    onDataEvent ⟨[], ⟨false, false, false⟩⟩ ⟨.WS_TEXT, false, 0, 4⟩ 4
        (some ⟨some "get", none, none⟩) =
      ⟨[], ⟨[], ⟨false, false, false⟩⟩, 0, 0⟩ :=
  ⟨(onDataEvent_nonCommand_ignored _ _ _ _).1 rfl,
   (onDataEvent_nonCommand_ignored _ _ _ _).2.1 rfl⟩

/-- C5: a `start_stream` request with no start callback bound, and a
`stop_stream` request with no stop callback bound, always produce the
unsupported-feature error reply, leave the whole state unchanged, and invoke
no callback. -/
theorem streamRequest_unsupported (st : ControlState) (doc : CommandDoc) :
    (doc.action = some "start_stream" → st.stream.hasStartCallback = false →
      handleCommand st doc =
        ⟨[.statusMsg "error" "Streaming feature not implemented/configured."],
          st, 0, 0⟩) ∧
    (doc.action = some "stop_stream" → st.stream.hasStopCallback = false →
      handleCommand st doc =
        ⟨[.statusMsg "error" "Streaming feature not implemented/configured."],
          st, 0, 0⟩) := by
  constructor <;> intro ha hcb <;> simp [handleCommand, ha, hcb]

/-- Witness for C5: concrete unsupported start and stop requests. -/
theorem streamRequest_unsupported_witness :
    handleCommand ⟨[], ⟨true, false, false⟩⟩ ⟨some "start_stream", none, none⟩ =
      ⟨[.statusMsg "error" "Streaming feature not implemented/configured."],
        ⟨[], ⟨true, false, false⟩⟩, 0, 0⟩ ∧
    handleCommand ⟨[], ⟨true, false, false⟩⟩ ⟨some "stop_stream", none, none⟩ =
      ⟨[.statusMsg "error" "Streaming feature not implemented/configured."],
        ⟨[], ⟨true, false, false⟩⟩, 0, 0⟩ :=
  ⟨(streamRequest_unsupported ⟨[], ⟨true, false, false⟩⟩
      ⟨some "start_stream", none, none⟩).1 rfl rfl,
   (streamRequest_unsupported ⟨[], ⟨true, false, false⟩⟩
      ⟨some "stop_stream", none, none⟩).2 rfl rfl⟩

/-- C6: `start_stream` while already streaming and `stop_stream` while idle
are no-ops with an informational reply and no callback invocation; from
idle, two consecutive `start_stream` requests give the ok (Started) reply
with one start-callback invocation and then the informational
(AlreadyActive) reply with none, so the callback fires exactly once. -/
theorem streamRequest_idempotent (st : ControlState) (doc : CommandDoc) :
    (doc.action = some "start_stream" → st.stream.hasStartCallback = true →
      st.stream.isStreaming = true →
      handleCommand st doc =
        ⟨[.statusMsg "info" "Stream was already active."], st, 0, 0⟩) ∧
    (doc.action = some "stop_stream" → st.stream.hasStopCallback = true →
      st.stream.isStreaming = false →
      handleCommand st doc =
        ⟨[.statusMsg "info" "Stream was already stopped."], st, 0, 0⟩) ∧
    (doc.action = some "start_stream" → st.stream.hasStartCallback = true →
      st.stream.isStreaming = false →
      handleCommand st doc =
        ⟨[.statusMsg "ok" "Stream started."],
          { st with stream := { st.stream with isStreaming := true } }, 1, 0⟩ ∧
      handleCommand { st with stream := { st.stream with isStreaming := true } } doc =
        ⟨[.statusMsg "info" "Stream was already active."],
          { st with stream := { st.stream with isStreaming := true } }, 0, 0⟩) := by
  refine ⟨fun ha hcb hs => ?_, fun ha hcb hs => ?_,
    fun ha hcb hs => ⟨?_, ?_⟩⟩ <;> simp [handleCommand, ha, hcb, hs]

/-- Witness for C6: a concrete already-active start, an already-stopped
stop, and the two-consecutive-starts scenario. -/
theorem streamRequest_idempotent_witness :
    handleCommand ⟨[], ⟨true, true, true⟩⟩ ⟨some "start_stream", none, none⟩ =
      ⟨[.statusMsg "info" "Stream was already active."],
        ⟨[], ⟨true, true, true⟩⟩, 0, 0⟩ ∧
    handleCommand ⟨[], ⟨false, true, true⟩⟩ ⟨some "stop_stream", none, none⟩ =
      ⟨[.statusMsg "info" "Stream was already stopped."],
        ⟨[], ⟨false, true, true⟩⟩, 0, 0⟩ ∧
    handleCommand ⟨[], ⟨false, true, true⟩⟩ ⟨some "start_stream", none, none⟩ =
      ⟨[.statusMsg "ok" "Stream started."], ⟨[], ⟨true, true, true⟩⟩, 1, 0⟩ :=
  ⟨(streamRequest_idempotent ⟨[], ⟨true, true, true⟩⟩
      ⟨some "start_stream", none, none⟩).1 rfl rfl rfl,
   (streamRequest_idempotent ⟨[], ⟨false, true, true⟩⟩
      ⟨some "stop_stream", none, none⟩).2.1 rfl rfl rfl,
   ((streamRequest_idempotent ⟨[], ⟨false, true, true⟩⟩
      ⟨some "start_stream", none, none⟩).2.2 rfl rfl rfl).1⟩

/-- C9: for `get`/`set`, a missing `variable` field is reported (for every
registry, so before any resolution) with the dedicated error reply and no
mutation; an unresolved name is reported with the name-not-found error
before `set`'s value checks (for every `value` field, present, null, absent,
or invalid) and mutates nothing; a `get` for an unregistered name yields
exactly the name-not-found error reply. -/
theorem dispatch_precedence (st : ControlState) (doc : CommandDoc) :
    ((doc.action = some "get" ∨ doc.action = some "set") →
      doc.varName = none →
      handleCommand st doc =
        ⟨[.statusMsg "error" "Missing 'variable' field for get/set action."],
          st, 0, 0⟩) ∧
    (∀ name, (doc.action = some "get" ∨ doc.action = some "set") →
      doc.varName = some name →
      findVariableIndexInternal st.vars name = none →
      handleCommand st doc =
        ⟨[.statusMsg "error" "Variable name not found."], st, 0, 0⟩) := by
  constructor
  · rintro (ha | ha) hv <;> simp [handleCommand, ha, hv]
  · rintro name (ha | ha) hv hf <;> simp [handleCommand, ha, hv, hf]

/-- Witness for C9: concrete missing-field and unregistered-name commands
against the demo registry, including a `set` carrying an invalid value that
is never examined. -/
theorem dispatch_precedence_witness :
    handleCommand ⟨demoVars, ⟨false, true, true⟩⟩ ⟨some "get", none, none⟩ =
      ⟨[.statusMsg "error" "Missing 'variable' field for get/set action."],
        ⟨demoVars, ⟨false, true, true⟩⟩, 0, 0⟩ ∧
    handleCommand ⟨demoVars, ⟨false, true, true⟩⟩
        ⟨some "get", some "missing", none⟩ =
      ⟨[.statusMsg "error" "Variable name not found."],
        ⟨demoVars, ⟨false, true, true⟩⟩, 0, 0⟩ ∧
    handleCommand ⟨demoVars, ⟨false, true, true⟩⟩
        ⟨some "set", some "missing", some .jother⟩ =
      ⟨[.statusMsg "error" "Variable name not found."],
        ⟨demoVars, ⟨false, true, true⟩⟩, 0, 0⟩ :=
  ⟨(dispatch_precedence ⟨demoVars, ⟨false, true, true⟩⟩
      ⟨some "get", none, none⟩).1 (Or.inl rfl) rfl,
   (dispatch_precedence ⟨demoVars, ⟨false, true, true⟩⟩
      ⟨some "get", some "missing", none⟩).2 "missing" (Or.inl rfl) rfl
      (by decide),
   (dispatch_precedence ⟨demoVars, ⟨false, true, true⟩⟩
      ⟨some "set", some "missing", some .jother⟩).2 "missing" (Or.inr rfl) rfl
      (by decide)⟩

/-- C2: the type-compatibility check of `setVariableValueInternal` accepts,
for kind Integer, exactly the integral numeric candidates and the float
candidates with no fractional part; for kind Float exactly the numeric
candidates; for kind Text exactly the text candidates; and an incompatible
candidate makes `set` fail with the registry unchanged. -/
theorem setVariableValueInternal_typeCheck (vars : List VariableConfig)
    (index : Nat) (var : VariableConfig) (v : JsonValue)
    (hv : vars[index]? = some var) :
    (typeCompatible var.type v = false →
      setVariableValueInternal vars index v = (false, vars)) ∧
    (typeCompatible .TYPE_INT v = true ↔
      (∃ n, v = .jint n) ∨ ∃ q, v = .jfloat q ∧ q.den = 1) ∧
    (typeCompatible .TYPE_FLOAT v = true ↔
      (∃ n, v = .jint n) ∨ ∃ q, v = .jfloat q) ∧
    (typeCompatible .TYPE_STRING v = true ↔ ∃ s, v = .jstr s) := by
  refine ⟨fun hc => ?_, ?_, ?_, ?_⟩
  · cases htype : var.type <;>
      simp_all [setVariableValueInternal, typeCompatible]
  · cases v <;>
      simp [typeCompatible, JsonValue.isIntCompatible]
  · cases v <;>
      simp [typeCompatible, JsonValue.isFloatCompatible,
        JsonValue.isIntCompatible]
  · cases v <;>
      simp [typeCompatible, JsonValue.isStringCompatible]

/-- Witness for C2: on the demo Float variable a text candidate is rejected
with the registry unchanged, and the three compatibility characterizations
hold at concrete values. -/
theorem setVariableValueInternal_typeCheck_witness :
    setVariableValueInternal demoVars 0 (.jstr "x") = (false, demoVars) ∧
    typeCompatible .TYPE_INT (.jfloat (Rat.divInt 5 2)) = false ∧
    typeCompatible .TYPE_FLOAT (.jfloat (Rat.divInt 5 2)) = true ∧
    typeCompatible .TYPE_STRING (.jstr "x") = true :=
  ⟨(setVariableValueInternal_typeCheck demoVars 0 gainVar (.jstr "x")
      (by decide)).1 (by decide),
   by
    have h := (setVariableValueInternal_typeCheck demoVars 0 gainVar
      (.jfloat (Rat.divInt 5 2)) (by decide)).2.1
    simp only [Bool.eq_false_iff, Ne, h]
    rintro (⟨n, hn⟩ | ⟨q, hq, hden⟩)
    · exact JsonValue.noConfusion hn
    · cases hq; revert hden; decide,
   by
    exact ((setVariableValueInternal_typeCheck demoVars 0 gainVar
      (.jfloat (Rat.divInt 5 2)) (by decide)).2.2.1).mpr
      (Or.inr ⟨Rat.divInt 5 2, rfl⟩),
   ((setVariableValueInternal_typeCheck demoVars 0 gainVar
      (.jstr "x") (by decide)).2.2.2).mpr ⟨"x", rfl⟩⟩

/-- A reject-or-write conditional keeps the success flag true exactly when
the reject condition fails. -/
theorem reject_ite_fst_iff (P : Prop) [Decidable P]
    (vars l : List VariableConfig) :
    ((if P then ((false : Bool), vars) else (true, l)).1 = true) ↔ ¬ P := by
  split <;> simp_all

/-- `setVariableValueInternal` either fails returning the registry unchanged,
or the indexed variable exists and exactly the value slot matching its kind
is overwritten with the converted candidate. -/
theorem setVariableValueInternal_cases (vars : List VariableConfig)
    (index : Nat) (v : JsonValue) :
    setVariableValueInternal vars index v = (false, vars) ∨
    ∃ var, vars[index]? = some var ∧ index < vars.length ∧
      ((var.type = .TYPE_INT ∧ setVariableValueInternal vars index v =
          (true, vars.set index { var with intValue := v.asInt })) ∨
       (var.type = .TYPE_FLOAT ∧ setVariableValueInternal vars index v =
          (true, vars.set index { var with floatValue := v.asFloat })) ∨
       (var.type = .TYPE_STRING ∧ setVariableValueInternal vars index v =
          (true, vars.set index { var with stringValue := v.asString }))) := by
  rcases hv : vars[index]? with _ | var
  · left
    simp [setVariableValueInternal, hv]
  · have hlt : index < vars.length := (List.getElem?_eq_some.mp hv).1
    cases htype : var.type
    · by_cases hc : v.isIntCompatible = true
      · by_cases hr : var.hasLimits = true ∧
            ((v.asInt : Rat) < var.minVal ∨ (v.asInt : Rat) > var.maxVal)
        · left
          simp [setVariableValueInternal, hv, htype, hc, hr]
        · right
          exact ⟨var, rfl, hlt, Or.inl ⟨htype,
            by simp [setVariableValueInternal, hv, htype, hc, hr]⟩⟩
      · left
        simp [setVariableValueInternal, hv, htype, hc]
    · by_cases hc : v.isFloatCompatible = false ∧ v.isIntCompatible = false
      · left
        simp [setVariableValueInternal, hv, htype, hc]
      · by_cases hr : var.hasLimits = true ∧
            (v.asFloat < var.minVal ∨ v.asFloat > var.maxVal)
        · left
          simp [setVariableValueInternal, hv, htype, hc, hr]
        · right
          exact ⟨var, rfl, hlt, Or.inr (Or.inl ⟨htype,
            by simp [setVariableValueInternal, hv, htype, hc, hr]⟩)⟩
    · by_cases hc : v.isStringCompatible = true
      · right
        exact ⟨var, rfl, hlt, Or.inr (Or.inr ⟨htype,
          by simp [setVariableValueInternal, hv, htype, hc]⟩)⟩
      · left
        simp [setVariableValueInternal, hv, htype, hc]

/-- C3: for a numeric variable (kind Integer or Float) with limits enabled,
`set` succeeds exactly when the candidate is type-compatible and
`minVal ≤ candidate ≤ maxVal` (bounds inclusive); with limits disabled no
range check is performed and `set` succeeds exactly when the candidate is
type-compatible. -/
theorem setVariableValueInternal_range (vars : List VariableConfig)
    (index : Nat) (var : VariableConfig) (v : JsonValue)
    (hv : vars[index]? = some var)
    (hnum : var.type = .TYPE_INT ∨ var.type = .TYPE_FLOAT) :
    (var.hasLimits = true →
      ((setVariableValueInternal vars index v).1 = true ↔
        typeCompatible var.type v = true ∧
        var.minVal ≤ v.asFloat ∧ v.asFloat ≤ var.maxVal)) ∧
    (var.hasLimits = false →
      ((setVariableValueInternal vars index v).1 = true ↔
        typeCompatible var.type v = true)) := by
  rcases hnum with htype | htype
  · constructor <;> intro hl
    · by_cases hc : v.isIntCompatible = true
      · have hcast := asInt_cast_eq_asFloat v hc
        simp [setVariableValueInternal, hv, htype, typeCompatible, hl, hc,
          hcast]
        rw [reject_ite_fst_iff, not_or, not_lt, not_lt]
      · simp [setVariableValueInternal, hv, htype, typeCompatible, hc]
    · by_cases hc : v.isIntCompatible = true
      · simp [setVariableValueInternal, hv, htype, typeCompatible, hl, hc]
      · simp [setVariableValueInternal, hv, htype, typeCompatible, hc]
  · constructor <;> intro hl
    · by_cases hc : (v.isFloatCompatible || v.isIntCompatible) = true
      · simp only [Bool.or_eq_true] at hc
        rcases hc with hc | hc <;>
          (simp [setVariableValueInternal, hv, htype, typeCompatible, hl,
             hc]
           rw [reject_ite_fst_iff, not_or, not_lt, not_lt])
      · simp only [Bool.or_eq_true, not_or, Bool.not_eq_true] at hc
        simp [setVariableValueInternal, hv, htype, typeCompatible, hc.1,
          hc.2]
    · by_cases hc : (v.isFloatCompatible || v.isIntCompatible) = true
      · simp only [Bool.or_eq_true] at hc
        rcases hc with hc | hc <;>
          simp [setVariableValueInternal, hv, htype, typeCompatible, hl, hc]
      · simp only [Bool.or_eq_true, not_or, Bool.not_eq_true] at hc
        simp [setVariableValueInternal, hv, htype, typeCompatible, hc.1,
          hc.2]

/-- Witness for C3 on the demo Float variable with limits (0, 10): the
in-range candidate 5/2 is accepted and the out-of-range candidate 15 is
rejected. -/
theorem setVariableValueInternal_range_witness :
    (setVariableValueInternal demoVars 0 (.jfloat (Rat.divInt 5 2))).1 =
      true ∧
    (setVariableValueInternal demoVars 0 (.jfloat 15)).1 = false := by
  constructor
  · exact ((setVariableValueInternal_range demoVars 0 gainVar
      (.jfloat (Rat.divInt 5 2)) (by decide) (Or.inr rfl)).1 rfl).mpr
      ⟨by decide, by decide, by decide⟩
  · have h := (setVariableValueInternal_range demoVars 0 gainVar
      (.jfloat 15) (by decide) (Or.inr rfl)).1 rfl
    rw [Bool.eq_false_iff]
    intro htrue
    have h2 := h.mp htrue
    revert h2
    decide

/-- C4: `set` is all-or-nothing. When it fails the whole registry is
returned unchanged; when it succeeds the registry keeps its length, every
other slot is untouched, and the targeted slot keeps its name, kind and
limits while only the value slot matching its kind is replaced by the
candidate. -/
theorem setVariableValueInternal_allOrNothing (vars : List VariableConfig)
    (index : Nat) (v : JsonValue) :
    ((setVariableValueInternal vars index v).1 = false →
      (setVariableValueInternal vars index v).2 = vars) ∧
    ((setVariableValueInternal vars index v).1 = true →
      ∃ var, vars[index]? = some var ∧
        (setVariableValueInternal vars index v).2.length = vars.length ∧
        (∀ j, j ≠ index →
          (setVariableValueInternal vars index v).2[j]? = vars[j]?) ∧
        ∃ newVar,
          (setVariableValueInternal vars index v).2[index]? = some newVar ∧
          newVar.name = var.name ∧ newVar.type = var.type ∧
          newVar.hasLimits = var.hasLimits ∧ newVar.minVal = var.minVal ∧
          newVar.maxVal = var.maxVal ∧
          (var.type = .TYPE_INT → newVar = { var with intValue := v.asInt }) ∧
          (var.type = .TYPE_FLOAT →
            newVar = { var with floatValue := v.asFloat }) ∧
          (var.type = .TYPE_STRING →
            newVar = { var with stringValue := v.asString })) := by
  rcases setVariableValueInternal_cases vars index v with h |
    ⟨var, hv, hlt, hcase⟩
  · constructor
    · intro _
      rw [h]
    · intro htrue
      rw [h] at htrue
      cases htrue
  · constructor
    · intro hfalse
      rcases hcase with ⟨ht, heq⟩ | ⟨ht, heq⟩ | ⟨ht, heq⟩ <;>
        rw [heq] at hfalse <;> cases hfalse
    · intro _
      rcases hcase with ⟨ht, heq⟩ | ⟨ht, heq⟩ | ⟨ht, heq⟩ <;>
        refine ⟨var, hv, ?_, ?_, ?_⟩ <;>
        rw [heq] <;>
        try exact List.length_set ..
      · exact fun j hj => List.getElem?_set_ne (fun h2 => hj h2.symm)
      · exact ⟨_, List.getElem?_set_self hlt, rfl, by simp [ht], rfl, rfl,
          rfl, fun _ => rfl,
          fun h2 => VarType.noConfusion (ht.symm.trans h2),
          fun h2 => VarType.noConfusion (ht.symm.trans h2)⟩
      · exact fun j hj => List.getElem?_set_ne (fun h2 => hj h2.symm)
      · exact ⟨_, List.getElem?_set_self hlt, rfl, by simp [ht], rfl, rfl,
          rfl, fun h2 => VarType.noConfusion (ht.symm.trans h2),
          fun _ => rfl,
          fun h2 => VarType.noConfusion (ht.symm.trans h2)⟩
      · exact fun j hj => List.getElem?_set_ne (fun h2 => hj h2.symm)
      · exact ⟨_, List.getElem?_set_self hlt, rfl, by simp [ht], rfl, rfl,
          rfl, fun h2 => VarType.noConfusion (ht.symm.trans h2),
          fun h2 => VarType.noConfusion (ht.symm.trans h2),
          fun _ => rfl⟩

/-- Witness for C4 on the demo registry: the rejected out-of-range set
leaves the registry unchanged, and a successful set on the Float variable
rewrites exactly its float slot. -/
theorem setVariableValueInternal_allOrNothing_witness :
    (setVariableValueInternal demoVars 0 (.jfloat 15)).2 = demoVars ∧
    (setVariableValueInternal demoVars 0
      (.jfloat (Rat.divInt 5 2))).2[0]? =
        some { gainVar with floatValue := Rat.divInt 5 2 } := by
  constructor
  · exact (setVariableValueInternal_allOrNothing demoVars 0 (.jfloat 15)).1
      (by decide)
  · obtain ⟨var, hvar, hlen, hother, newVar, hget, hname, htype2, hlim,
      hmin, hmax, hint, hfloat, hstr⟩ :=
      (setVariableValueInternal_allOrNothing demoVars 0
        (.jfloat (Rat.divInt 5 2))).2 (by decide)
    have hvar2 : var = gainVar := by
      have hdemo : demoVars[0]? = some gainVar := by decide
      rw [hdemo] at hvar
      exact (Option.some_inj.mp hvar).symm
    subst hvar2
    rw [hget, hfloat rfl]
    rfl

/-- C1: dispatching `{"action":"get_all_vars_config"}` on a non-empty
registry produces a bulk reply (status `var_config_list`) whose variables
array has exactly one entry per registered variable in registration order,
each carrying the variable's name, type as text, current value, `hasLimits`
flag, and min/max when applicable, with the state untouched and no callback
invoked; on an empty/uninitialized registry it produces an error reply. -/
theorem getAllVarsConfig_spec (st : ControlState) (doc : CommandDoc)
    (ha : doc.action = some "get_all_vars_config") :
    (st.vars ≠ [] →
      handleCommandFull st doc =
        ⟨[Reply.varConfigList (st.vars.map varConfigEntryOf)], st, 0, 0⟩ ∧
      (st.vars.map varConfigEntryOf).length = st.vars.length ∧
      ∀ (i : Nat) (var : VariableConfig), st.vars[i]? = some var →
        (st.vars.map varConfigEntryOf)[i]? = some
          ({ name := var.name
             typeText := typeText var.type
             value := currentValue var
             hasLimits := var.hasLimits
             limits := if var.hasLimits then some (var.minVal, var.maxVal)
               else none } : VarConfigEntry)) ∧
    (st.vars = [] → ∃ msg, handleCommandFull st doc =
      ⟨[Reply.statusMsg "error" msg], st, 0, 0⟩) := by
  constructor
  · intro hne
    refine ⟨?_, by simp, ?_⟩
    · simp [handleCommandFull, ha, handleGetAllVarsConfig,
        List.isEmpty_iff, hne]
    · intro i var hvar
      rw [List.getElem?_map, hvar]
      rfl
  · intro hemp
    exact ⟨"No variables configured.",
      by simp [handleCommandFull, ha, handleGetAllVarsConfig, hemp]⟩

/-- Witness for C1: the bulk reply on the concrete demo registry, and the
error reply on the empty registry. -/
theorem getAllVarsConfig_spec_witness :
    handleCommandFull ⟨demoVars, ⟨false, true, true⟩⟩
        ⟨some "get_all_vars_config", none, none⟩ =
      ⟨[Reply.varConfigList
          [({ name := "gain", typeText := "FLOAT", value := .jfloat 1,
              hasLimits := true, limits := some (0, 10) } : VarConfigEntry)]],
        ⟨demoVars, ⟨false, true, true⟩⟩, 0, 0⟩ ∧
    handleCommandFull ⟨[], ⟨false, true, true⟩⟩
        ⟨some "get_all_vars_config", none, none⟩ =
      ⟨[Reply.statusMsg "error" "No variables configured."],
        ⟨[], ⟨false, true, true⟩⟩, 0, 0⟩ := by
  constructor
  · have h := (getAllVarsConfig_spec ⟨demoVars, ⟨false, true, true⟩⟩
      ⟨some "get_all_vars_config", none, none⟩ rfl).1
      (by simp [demoVars])
    rw [h.1]
    rfl
  · obtain ⟨msg, hmsg⟩ := (getAllVarsConfig_spec ⟨[], ⟨false, true, true⟩⟩
      ⟨some "get_all_vars_config", none, none⟩ rfl).2 rfl
    rw [hmsg]
    have : msg = "No variables configured." := by
      have h2 := hmsg
      rw [show handleCommandFull ⟨[], ⟨false, true, true⟩⟩
          ⟨some "get_all_vars_config", none, none⟩ =
          ⟨[Reply.statusMsg "error" "No variables configured."],
            ⟨[], ⟨false, true, true⟩⟩, 0, 0⟩ from rfl] at h2
      have h3 := congrArg EventResult.replies h2
      simp at h3
      exact h3.symm
    rw [this]

end ESP32WebSocketControl
